import Mathlib

/-!
Verification of the chat repository's encryption envelope protocol and
disappearing-message lifecycle against its natural-language specification.

The embedding models the TypeScript source shallowly:

* WebCrypto operations (RSA-OAEP key wrapping, AES-GCM authenticated
  encryption) are modelled as ideal ciphers: a ciphertext value records the
  key (an abstract `Nat` identifier), the nonce and the plaintext it was
  produced from, and decryption succeeds exactly when the presented key and
  nonce match.  An asymmetric key pair is identified by a single `Nat`
  (public and private halves of the same pair share the identifier).
* A wire string (the `encrypted_content` column) is modelled by its parse
  class: `Wire.json p` is a string that `JSON.parse` turns into packet `p`,
  `Wire.b64 c` is a non-JSON base64 string decoding to RSA ciphertext `c`,
  and `Wire.plain s` is any other string (JSON.parse and atob both fail).
* Thrown exceptions are modelled with `Except`; a `try/catch` in the source
  becomes a total wrapper around an `Except`-valued body.
* Randomness (fresh AES keys and nonces) is threaded as explicit arguments.
-/

namespace ChatCore

/-- Plaintext bytes recovered by an RSA-OAEP decryption: either the raw
export of an AES key (32 bytes) or UTF-8 text bytes. -/
inductive RSABytes where
  | aesRaw (k : Nat)
  | text (s : String)
deriving DecidableEq

/-- A base64 string that may hold an RSA-OAEP ciphertext.  `rsa pair payload`
is the ciphertext of `payload` under the public key of pair `pair`;
`junk s` is any other string (RSA decryption of it throws; `junk ""` is the
empty string, which is falsy in JS). -/
inductive B64Cipher where
  | rsa (pair : Nat) (payload : RSABytes)
  | junk (s : String)
deriving DecidableEq

/-- A base64 string that may hold an AES-GCM ciphertext of text, as produced
by `encryptWithAES`: `enc key iv pt` records the key, the nonce and the
plaintext.  `junk s` is any other string (authentication fails). -/
inductive AESContent where
  | enc (key : Nat) (iv : Nat) (pt : String)
  | junk (s : String)
deriving DecidableEq

/-- Encrypted media bytes as stored in the blob store, produced by
`encryptBlob` with an AES key and nonce over blob data. -/
inductive BlobCipher where
  | enc (key : Nat) (iv : Nat) (data : String)
  | junk (s : String)
deriving DecidableEq

/-- The object obtained from `JSON.parse` of an envelope string.  Each field
is `none` when absent or null in the JSON (absent and null are both falsy,
matching every use in the source). -/
structure Packet where
  v : Option String := none
  key : Option B64Cipher := none
  keys : Option (List (String × B64Cipher)) := none
  content : Option AESContent := none
  iv : Option Nat := none
  media_iv : Option Nat := none
deriving DecidableEq

/-- A wire string (message `encrypted_content`), classified by how
`JSON.parse` and `atob` treat it. -/
inductive Wire where
  | json (p : Packet)
  | b64 (c : B64Cipher)
  | plain (s : String)
deriving DecidableEq

/-- A decrypted binary payload together with its MIME type. -/
structure Blob where
  data : String
  mime : String
deriving DecidableEq

/-- Result value of `decryptMessageContent`.  In the source all three are
plain strings; the constructors record their provenance: `text` a literal
or decrypted string, `wire` the original `encrypted_content` returned
verbatim, `mediaUrl` an object URL of a decrypted blob. -/
inductive Out where
  | text (s : String)
  | wire (w : Wire)
  | mediaUrl (b : Blob)
deriving DecidableEq

/-- Error taxonomy for thrown exceptions inside crypto operations. -/
inductive CErr where
  | decodeErr
  | keyOpErr
  | importErr
  | decryptAuth
deriving DecidableEq

/-- A row of the `messages` table, with the columns this core reads and
writes.  Optional columns are `none` when null. -/
structure Msg where
  id : String := ""
  sender_id : String := ""
  receiver_id : String := ""
  encrypted_content : Option Wire := none
  media_type : String := "text"
  media_url : Option BlobCipher := none
  is_viewed : Bool := false
  viewed_at : Option Nat := none
  view_count : Option Nat := none
  is_view_once : Bool := false
  is_disappearing : Bool := false
  disappearing_duration : Option Nat := none
  expires_at : Option Nat := none
  is_saved : Option Bool := none
  created_at : Nat := 0
deriving DecidableEq

/-- JS truthiness of a string that may hold an RSA ciphertext: every real
base64 ciphertext is a nonempty string, so only the empty junk string is
falsy. -/
def b64Truthy : B64Cipher → Bool
  | .rsa _ _ => true
  | .junk s => s != ""

/-- JS truthiness of a string that may hold an AES-GCM ciphertext: the
ciphertext always carries a 16-byte tag, so it is nonempty. -/
def aesTruthy : AESContent → Bool
  | .enc _ _ _ => true
  | .junk s => s != ""

/-- JS truthiness of a nullable numeric column (`null` and `0` are falsy). -/
def jsTruthyNat : Option Nat → Bool
  | none => false
  | some n => n != 0

/-- Property lookup `obj[k]` on a JSON object modelled as an association
list. -/
def lookupKey : List (String × B64Cipher) → String → Option B64Cipher
  | [], _ => none
  | (k, v) :: rest, u => if k = u then some v else lookupKey rest u

/-- `new TextDecoder().decode` of RSA plaintext bytes: it never throws; on
raw AES key bytes it yields a garbled (but well-defined) string. -/
def textDecode : RSABytes → String
  | .text s => s
  | .aesRaw k => "[raw-bytes " ++ toString k ++ "]"

/-- `window.crypto.subtle.decrypt({name: RSA-OAEP}, privateKey, bytes)`:
succeeds exactly when the ciphertext was wrapped under the matching key
pair; throws otherwise (modelled as `Except.error`). -/
def rsaDecryptBytes (c : B64Cipher) (priv : Nat) : Except CErr RSABytes :=
  match c with
  | .rsa pair payload => if pair = priv then .ok payload else .error .keyOpErr
  | .junk _ => .error .decodeErr

/-- Source `encryptAESKeyForUser`: export the AES key raw and RSA-OAEP
encrypt it under the recipient public key. -/
def encryptAESKeyForUser (aes : Nat) (userPub : Nat) : B64Cipher :=
  .rsa userPub (.aesRaw aes)

/-- Source `decryptAESKeyWithUserPrivateKey`: RSA-decrypt the wrapped key
and import the bytes as a raw AES key.  Importing bytes that are not a raw
32-byte key export throws. -/
def decryptAESKeyWithUserPrivateKey (c : B64Cipher) (priv : Nat) : Except CErr Nat :=
  match rsaDecryptBytes c priv with
  | .ok (.aesRaw k) => .ok k
  | .ok (.text _) => .error .importErr
  | .error e => .error e

/-- Source `encryptWithAES`: AES-GCM encrypt `text` with `key` under fresh
nonce `iv`; returns the content and iv pair (both base64 in the source). -/
def encryptWithAES (text : String) (key : Nat) (iv : Nat) : AESContent × Nat :=
  (.enc key iv text, iv)

/-- Source `decryptWithAES`: authenticate and decrypt; fails (throws) unless
the presented key and nonce are the ones used at encryption. -/
def decryptWithAES (c : AESContent) (ivGiven : Nat) (key : Nat) : Except CErr String :=
  match c with
  | .enc k i pt => if k = key ∧ i = ivGiven then .ok pt else .error .decryptAuth
  | .junk _ => .error .decryptAuth

/-- Source `encryptBlob`: AES-GCM over the whole binary payload with its own
fresh nonce. -/
def encryptBlob (data : String) (key : Nat) (iv : Nat) : BlobCipher × Nat :=
  (.enc key iv data, iv)

/-- Source `decryptToBlob`: authenticate and decrypt the media bytes and
attach the chosen MIME type; on failure the error is rethrown to the caller
(modelled as `Except.error`). -/
def decryptToBlob (c : BlobCipher) (ivGiven : Nat) (key : Nat) (mime : String) :
    Except CErr Blob :=
  match c with
  | .enc k i d => if k = key ∧ i = ivGiven then .ok ⟨d, mime⟩ else .error .decryptAuth
  | .junk _ => .error .decryptAuth

/-- Source `encryptMessage` (library helper), happy path: one fresh AES key
`aesId`, one AES-GCM encryption of the message under nonce `ivN`, the raw
AES key wrapped once under the single given public key, emitted as JSON
tagged `v = "h1"` with the wrapped key under the singular field `key`.
(The catch-branch RSA fallback fires only on platform failure, which the
ideal-cipher model has no counterpart for.) -/
def encryptMessage (message : String) (pub : Nat) (aesId : Nat) (ivN : Nat) : Wire :=
  .json { v := some "h1"
          key := some (encryptAESKeyForUser aesId pub)
          content := some (encryptWithAES message aesId ivN).1
          iv := some ivN }

/-- The shape test of source `decryptMessage` line 111:
`packet.v === "h1" && packet.key && packet.content && packet.iv`. -/
def hybridShape1 (p : Packet) : Bool :=
  match p.v, p.key, p.content, p.iv with
  | some ver, some kc, some c, some _ => ver == "h1" && b64Truthy kc && aesTruthy c
  | _, _, _, _ => false

/-- The legacy branch of source `decryptMessage` (lines 102-108 and
117-123): base64-decode the whole original string and RSA-OAEP decrypt it
with the private key.  On a JSON string or non-base64 text, `atob` (or the
RSA decryption) throws. -/
def legacyRsaDecrypt (w : Wire) (priv : Nat) : Except CErr String :=
  match w with
  | .b64 c => (rsaDecryptBytes c priv).map textDecode
  | .json _ => .error .decodeErr
  | .plain _ => .error .decodeErr

/-- Body of source `decryptMessage` before its outer catch: parse, take the
hybrid path when the `v = "h1"` / `key` / `content` / `iv` shape matches,
otherwise run the (inlined) legacy RSA decryption of the original string. -/
def decryptMessageBody (w : Wire) (priv : Nat) : Except CErr String :=
  match w with
  | .json p =>
    match p.v, p.key, p.content, p.iv with
    | some ver, some kc, some c, some ivv =>
      if ver == "h1" && b64Truthy kc && aesTruthy c then
        match decryptAESKeyWithUserPrivateKey kc priv with
        | .ok aes => decryptWithAES c ivv aes
        | .error e => .error e
      else
        .error .decodeErr
    | _, _, _, _ => .error .decodeErr
  | .b64 c => (rsaDecryptBytes c priv).map textDecode
  | .plain _ => .error .decodeErr

/-- Source `decryptMessage`: the whole body runs under a catch that converts
any thrown error into the neutral placeholder string. -/
def decryptMessage (w : Wire) (priv : Nat) : String :=
  match decryptMessageBody w priv with
  | .ok s => s
  | .error _ => "[Secure Signal]"

/-- Whether a wire string parses as JSON. -/
def wireIsJson : Wire → Bool
  | .json _ => true
  | _ => false

/-- The shape test of source `decryptMessageContent` line 420 (negated
there): `packet.iv && packet.content && packet.keys`.  A JSON object is
always truthy, so for `keys` presence suffices. -/
def contentShape (p : Packet) : Bool :=
  p.iv.isSome && (p.content.elim false aesTruthy) && p.keys.isSome

/-- Body of source `decryptMessageContent` (Chat component, lines 409-453)
before its outer catch.  `me` is `session.user.id`, `priv` the local
private key (possibly not yet loaded).  Note the empty-content guard at
line 411, the verbatim return of the original string when parsing fails or
the `iv`/`content`/`keys` shape is absent, the key-mismatch placeholder
when `keys` holds no entry for `me`, and the media path using
`packet.media_iv || packet.iv`.  (The `if (!aesKey)` null-check after a
successful key import at line 432 is unreachable and not modelled.) -/
def decryptMessageContentBody (me : String) (priv : Option Nat) (m : Msg) :
    Except CErr Out :=
  match m.encrypted_content with
  | none => .ok (.text "[Empty Signal]")
  | some w =>
    match w with
    | .json p =>
      match p.iv, p.content, p.keys with
      | some ivv, some c, some ks =>
        if aesTruthy c = false then .ok (.wire w)
        else
          match lookupKey ks me with
          | none => .ok (.text "[Secure Signal: Key mismatch for current node]")
          | some kc =>
            if b64Truthy kc = false then
              .ok (.text "[Secure Signal: Key mismatch for current node]")
            else
              match priv with
              | none => .ok (.text "[Decrypting...]")
              | some pk =>
                match decryptAESKeyWithUserPrivateKey kc pk with
                | .error e => .error e
                | .ok aes =>
                  if m.media_type == "image" || m.media_type == "snapshot" then
                    match m.media_url with
                    | none => .ok (.text "[Media Missing]")
                    | some bc =>
                      let mime := if m.media_type == "snapshot" then "image/jpeg" else "image/*"
                      let useIv := match p.media_iv with
                        | some mi => mi
                        | none => ivv
                      match decryptToBlob bc useIv aes mime with
                      | .error e => .error e
                      | .ok b => .ok (.mediaUrl b)
                  else
                    match decryptWithAES c ivv aes with
                    | .error e => .error e
                    | .ok s => .ok (.text (if s = "" then "[Empty Signal]" else s))
      | _, _, _ => .ok (.wire w)
    | .b64 _ => .ok (.wire w)
    | .plain _ => .ok (.wire w)

/-- Source `decryptMessageContent`: the body runs under a catch that turns
any thrown error into the neutral placeholder string. -/
def decryptMessageContent (me : String) (priv : Option Nat) (m : Msg) : Out :=
  match decryptMessageContentBody me priv m with
  | .ok o => o
  | .error _ => .text "[Secure Signal]"

/-- Ambient send-time context of the Chat component: the two identities,
their public keys (by key pair identifier), the conversation auto-delete
mode and the current time `Date.now()` in milliseconds. -/
structure SendCtx where
  myId : String
  partnerId : String
  myPub : Nat
  partnerPub : Nat
  mode : String
  now : Nat
deriving DecidableEq

/-- JS `String.prototype.endsWith`: suffix test on the character
sequences. -/
def strEndsWith (s suffx : String) : Bool :=
  suffx.data.isSuffixOf s.data

/-- The JS object literal of source line 640,
`{ [myId]: keyForMe, [partnerId]: keyForPartner }`: when both computed
property names coincide the later assignment wins and the object has a
single entry. -/
def jsObj2 (k1 : String) (v1 : B64Cipher) (k2 : String) (v2 : B64Cipher) :
    List (String × B64Cipher) :=
  if k2 = k1 then [(k1, v2)] else [(k1, v1), (k2, v2)]

/-- Source `sendMessage` (Chat component, lines 584-683), modelled from the
early-return guard through the `messages` insert.  `text` is the already
trimmed `newMessage`; `media` is `some (blobData, mediaIvN)` when a media
blob is attached (with `mediaIvN` the fresh nonce `encryptBlob` draws);
`aesId` and `ivN` are the fresh AES key and the text nonce.  Returns `none`
on the early return (no text and no media), otherwise the JSON packet and
the inserted message row (`id` and `created_at` are store-assigned;
columns the insert omits are null). -/
def sendMessage (ctx : SendCtx) (mediaType : String) (text : String)
    (media : Option (String × Nat)) (aesId : Nat) (ivN : Nat) :
    Option (Packet × Msg) :=
  if text = "" ∧ media = none then none
  else
    let mediaEnc : Option BlobCipher := media.map (fun dm => (encryptBlob dm.1 aesId dm.2).1)
    let mediaIv : Option Nat := media.map (fun dm => dm.2)
    let contentToEncrypt := if text = "" then " " else text
    let packet : Packet :=
      { iv := some (encryptWithAES contentToEncrypt aesId ivN).2
        content := some (encryptWithAES contentToEncrypt aesId ivN).1
        media_iv := mediaIv
        keys := some (jsObj2 ctx.myId (encryptAESKeyForUser aesId ctx.myPub)
                             ctx.partnerId (encryptAESKeyForUser aesId ctx.partnerPub)) }
    let row : Msg :=
      { sender_id := ctx.myId
        receiver_id := ctx.partnerId
        encrypted_content := some (.json packet)
        media_type := mediaType
        media_url := mediaEnc
        is_viewed := false
        is_view_once := ctx.mode == "view"
        is_disappearing := strEndsWith ctx.mode "_view"
        disappearing_duration :=
          if ctx.mode = "1m_view" then some 1
          else if ctx.mode = "1h_view" then some 60
          else if ctx.mode = "3h_view" then some 180
          else none
        expires_at :=
          if ctx.mode = "3h" then some (ctx.now + 3 * 60 * 60 * 1000)
          else if ctx.mode = "1m" then some (ctx.now + 60 * 1000)
          else none
        created_at := ctx.now }
    some (packet, row)

/-- The `view_count` / `is_viewed` update payload `openSnapshot` sends to
the `messages` table. -/
structure SnapUpdate where
  view_count : Nat
  is_viewed : Bool
deriving DecidableEq

/-- Observable outcome of one `openSnapshot` call: whether the snapshot
content was displayed (`setShowSnapshotView` reached) and the record update
issued, if any. -/
structure SnapOutcome where
  shown : Bool
  update : Option SnapUpdate
deriving DecidableEq

/-- Source `openSnapshot` (lines 714-724): reject when the local user is the
receiver and `(view_count || 0) >= 2`; otherwise display the snapshot and,
when the local user is the receiver, update `view_count` to its successor
and `is_viewed` to `newViews >= 2`. -/
def openSnapshot (localId : String) (m : Msg) : SnapOutcome :=
  if m.receiver_id = localId ∧ 2 ≤ m.view_count.getD 0 then
    { shown := false, update := none }
  else
    { shown := true
      update :=
        if m.receiver_id = localId then
          some { view_count := m.view_count.getD 0 + 1
                 is_viewed := decide (2 ≤ m.view_count.getD 0 + 1) }
        else none }

/-- Effect of an issued `openSnapshot` update on the stored row (the
realtime UPDATE feed delivers the mutated row back). -/
def applySnapUpdate (m : Msg) : Option SnapUpdate → Msg
  | none => m
  | some u => { m with view_count := some u.view_count, is_viewed := u.is_viewed }

/-- The `unviewed` filter of source `fetchMessages` line 473: messages of
the conversation whose receiver is the local user and that are not yet
viewed. -/
def unviewedFilter (me : String) (m : Msg) : Bool :=
  m.receiver_id == me && !m.is_viewed

/-- The per-message update source `fetchMessages` builds at lines 476-481
for each unviewed received message: `is_viewed := true`,
`viewed_at := now`, and when `m.is_disappearing && m.disappearing_duration`
is truthy also `expires_at := now + duration minutes`. -/
def viewUpdate (now : Nat) (m : Msg) : Msg :=
  let base := { m with is_viewed := true, viewed_at := some now }
  if m.is_disappearing && jsTruthyNat m.disappearing_duration then
    { base with expires_at := some (now + m.disappearing_duration.getD 0 * 60 * 1000) }
  else base

/-- The store state after the `fetchMessages` viewing pass: every unviewed
received message gets `viewUpdate`, the rest are untouched. -/
def fetchMessagesViewPass (me : String) (now : Nat) (msgs : List Msg) : List Msg :=
  msgs.map (fun m => if unviewedFilter me m then viewUpdate now m else m)

/-- The selection predicate of the cleanup route (lines 15-20):
`is_viewed = true AND (is_saved is null OR is_saved = false) AND
(expires_at is null OR expires_at < now)`.  The route compares ISO-8601
timestamps, whose lexicographic order is chronological; time is a `Nat`. -/
def cleanupPred (now : Nat) (m : Msg) : Bool :=
  m.is_viewed
    && (match m.is_saved with
        | none => true
        | some b => !b)
    && (match m.expires_at with
        | none => true
        | some e => e < now)

/-- `[...new Set(ids)]`: keep the first occurrence of each id, in order. -/
def dedupAux (seen : List String) : List String → List String
  | [] => []
  | x :: xs => if x ∈ seen then dedupAux seen xs else x :: dedupAux (x :: seen) xs

/-- Deduplicate a list of ids, keeping first occurrences. -/
def dedupFirst (l : List String) : List String :=
  dedupAux [] l

/-- The id set the cleanup route requests deletion of (lines 15-36): the
ids of the snapshot rows matching `cleanupPred`, deduplicated. -/
def cleanupIds (now : Nat) (rows : List Msg) : List String :=
  dedupFirst ((rows.filter (cleanupPred now)).map Msg.id)

/-! ### Concrete fixtures used in witnesses and counterexamples -/

/-- A concrete send-time context: user `alice` writing to `bob`, auto-delete
mode `1h_view`, at time 5000 ms. -/
def ctx0 : SendCtx := ⟨"alice", "bob", 1, 2, "1h_view", 5000⟩

/-- The envelope `sendMessage` builds for `ctx0` with text `"hi"`, AES key 5
and nonce 7. -/
def packet0 : Packet :=
  { iv := some 7
    content := some (.enc 5 7 "hi")
    keys := some [("alice", .rsa 1 (.aesRaw 5)), ("bob", .rsa 2 (.aesRaw 5))] }

/-- The message row `sendMessage` inserts for `ctx0` with text `"hi"`. -/
def row0 : Msg :=
  { sender_id := "alice"
    receiver_id := "bob"
    encrypted_content := some (.json packet0)
    media_type := "text"
    is_disappearing := true
    disappearing_duration := some 60
    created_at := 5000 }

/-- A freshly delivered view-once snapshot for receiver `a`. -/
def snap0 : Msg :=
  { sender_id := "b", receiver_id := "a", media_type := "snapshot", is_view_once := true }

/-- `snap0` after the first `openSnapshot` call by the receiver. -/
def snap1 : Msg := applySnapUpdate snap0 (openSnapshot "a" snap0).update

/-- `snap1` after the second `openSnapshot` call by the receiver. -/
def snap2 : Msg := applySnapUpdate snap1 (openSnapshot "a" snap1).update

/-- A hybrid packet whose `keys` map has no entry for user `a`. -/
def pMis : Packet :=
  { iv := some 1, content := some (.enc 9 1 "x"), keys := some [("b", .rsa 3 (.aesRaw 9))] }

/-- A message carrying `pMis`. -/
def mMis : Msg := { encrypted_content := some (.json pMis) }

/-- A message whose `encrypted_content` is a bare legacy RSA ciphertext of
`"hello"` under key pair 0. -/
def mRaw : Msg := { encrypted_content := some (.b64 (.rsa 0 (.text "hello"))) }

/-- A received, unviewed `1h_view` message. -/
def m7 : Msg := { receiver_id := "a", is_disappearing := true, disappearing_duration := some 60 }

/-- A cleanup snapshot: `a` viewed and expired, `b` viewed but expiring in
the future, `c` viewed but saved. -/
def rowsW : List Msg :=
  [ { id := "a", is_viewed := true, expires_at := some 50 },
    { id := "b", is_viewed := true, expires_at := some 200 },
    { id := "c", is_viewed := true, is_saved := some true } ]

/-! ### Helper lemmas -/

theorem mem_dedupAux (a : String) :
    ∀ (l seen : List String), a ∈ dedupAux seen l ↔ a ∈ l ∧ a ∉ seen := by
  intro l
  induction l with
  | nil =>
    intro seen
    simp [dedupAux]
  | cons x xs ih =>
    intro seen
    by_cases hx : x ∈ seen
    · rw [dedupAux, if_pos hx, ih]
      constructor
      · rintro ⟨h1, h2⟩
        exact ⟨List.mem_cons_of_mem x h1, h2⟩
      · rintro ⟨h1, h2⟩
        rcases List.mem_cons.mp h1 with rfl | h3
        · exact absurd hx h2
        · exact ⟨h3, h2⟩
    · rw [dedupAux, if_neg hx]
      constructor
      · intro h
        rcases List.mem_cons.mp h with rfl | h3
        · exact ⟨List.mem_cons_self a xs, hx⟩
        · rcases (ih (x :: seen)).mp h3 with ⟨h4, h5⟩
          exact ⟨List.mem_cons_of_mem x h4, fun hs => h5 (List.mem_cons_of_mem x hs)⟩
      · rintro ⟨h1, h2⟩
        by_cases hax : a = x
        · subst hax
          exact List.mem_cons_self a _
        · rcases List.mem_cons.mp h1 with rfl | h3
          · exact absurd rfl hax
          · refine List.mem_cons_of_mem x ((ih (x :: seen)).mpr ⟨h3, ?_⟩)
            intro hs
            rcases List.mem_cons.mp hs with h4 | h4
            · exact hax h4
            · exact h2 h4

theorem nodup_dedupAux : ∀ (l seen : List String), (dedupAux seen l).Nodup := by
  intro l
  induction l with
  | nil =>
    intro seen
    simp [dedupAux]
  | cons x xs ih =>
    intro seen
    by_cases hx : x ∈ seen
    · rw [dedupAux, if_pos hx]
      exact ih seen
    · rw [dedupAux, if_neg hx]
      refine List.nodup_cons.mpr ⟨?_, ih (x :: seen)⟩
      intro hmem
      rcases (mem_dedupAux x xs (x :: seen)).mp hmem with ⟨_, h2⟩
      exact h2 (List.mem_cons_self x seen)

theorem mem_cleanupIds (now : Nat) (rows : List Msg) (i : String) :
    i ∈ cleanupIds now rows ↔ ∃ m, m ∈ rows ∧ m.id = i ∧ cleanupPred now m = true := by
  unfold cleanupIds dedupFirst
  rw [mem_dedupAux]
  simp only [List.mem_map, List.mem_filter, List.not_mem_nil, not_false_iff, and_true]
  constructor
  · rintro ⟨m, ⟨hm, hp⟩, rfl⟩
    exact ⟨m, hm, rfl, hp⟩
  · rintro ⟨m, hm, rfl, hp⟩
    exact ⟨m, ⟨hm, hp⟩, rfl⟩

/-! ### Claims -/

/-- C3: for every plaintext string and every key pair,
`decryptMessage (encryptMessage P pub) priv = P`: the hybrid envelope built
by `encryptMessage` round-trips through `decryptMessage` under the same key
pair, for any choice of the fresh AES key and nonce. -/
theorem claim_C3 (msg : String) (pair aesId ivN : Nat) :
    decryptMessage (encryptMessage msg pair aesId ivN) pair = msg := by
  simp [decryptMessage, decryptMessageBody, encryptMessage, encryptAESKeyForUser,
        encryptWithAES, decryptAESKeyWithUserPrivateKey, rsaDecryptBytes,
        decryptWithAES, b64Truthy, aesTruthy]

/-- C8: the cleanup sweep selects exactly the ids of snapshot rows with
`is_viewed = true`, `is_saved` null or false, and `expires_at` null or in
the past; the requested set is duplicate-free; a viewed, unsaved row whose
expiry lies in the future is not selected, a saved row is never selected,
and (for snapshots with distinct ids) a row failing the predicate is not in
the requested deletion set. -/
theorem claim_C8 (now : Nat) (rows : List Msg) :
    (∀ i, i ∈ cleanupIds now rows ↔ ∃ m, m ∈ rows ∧ m.id = i ∧ cleanupPred now m = true)
    ∧ (cleanupIds now rows).Nodup
    ∧ (∀ m : Msg, m.is_viewed = true → (m.is_saved = none ∨ m.is_saved = some false) →
        ∀ e, m.expires_at = some e → now ≤ e → cleanupPred now m = false)
    ∧ (∀ m : Msg, m.is_saved = some true → cleanupPred now m = false)
    ∧ (∀ m : Msg, m ∈ rows → (rows.map Msg.id).Nodup → cleanupPred now m = false →
        m.id ∉ cleanupIds now rows) := by
  refine ⟨mem_cleanupIds now rows, nodup_dedupAux _ _, ?_, ?_, ?_⟩
  · intro m _ _ e he hle
    have hd : decide (e < now) = false := decide_eq_false (Nat.not_lt.mpr hle)
    simp [cleanupPred, he, hd]
  · intro m hs
    simp [cleanupPred, hs]
  · intro m hm hnd hp hmem
    rcases (mem_cleanupIds now rows m.id).mp hmem with ⟨m2, hm2, hid, hp2⟩
    have heq : m2 = m := List.inj_on_of_nodup_map hnd hm2 hm hid
    rw [heq, hp] at hp2
    exact Bool.false_ne_true hp2

/-- C8 witness: on the concrete snapshot `rowsW` at time 100, the expired
unsaved row `a` is selected while the predicate rejects the future-expiry
row `b` and the saved row `c`. -/
theorem claim_C8_witness :
    "a" ∈ cleanupIds 100 rowsW
    ∧ cleanupPred 100 { id := "b", is_viewed := true, expires_at := some 200 } = false
    ∧ cleanupPred 100 { id := "c", is_viewed := true, is_saved := some true } = false := by
  have h := claim_C8 100 rowsW
  refine ⟨(h.1 "a").mpr ⟨{ id := "a", is_viewed := true, expires_at := some 50 },
            by decide, rfl, by decide⟩, ?_, ?_⟩
  · exact h.2.2.1 _ rfl (Or.inl rfl) 200 rfl (by decide)
  · exact h.2.2.2.1 _ rfl

/-- C1 counterexample: for a view-once snapshot whose receiver is the local
user, the second `openSnapshot` call is not rejected: it displays the
content again and issues a further update, raising `view_count` to 2. -/
theorem claim_C1_counterexample :
    (openSnapshot "a" snap0).shown = true
    ∧ snap1.view_count = some 1
    ∧ (openSnapshot "a" snap1).shown = true
    ∧ (openSnapshot "a" snap1).update ≠ none
    ∧ snap2.view_count = some 2 := by decide

/-- C1 (amended): for a view-once snapshot whose receiver is the local user
and whose view count starts at 0/null, the first `openSnapshot` call
displays the content and raises `view_count` to 1; the second call also
displays the content and raises `view_count` to 2 (marking `is_viewed`);
the third call is rejected with no content and no update; and starting from
any `view_count ≤ 2` the count never exceeds 2. -/
theorem claim_C1_amended (localId : String) (m0 m1 m2 : Msg)
    (hrecv : m0.receiver_id = localId) (hcount : m0.view_count.getD 0 = 0)
    (h1 : m1 = applySnapUpdate m0 (openSnapshot localId m0).update)
    (h2 : m2 = applySnapUpdate m1 (openSnapshot localId m1).update) :
    (openSnapshot localId m0).shown = true
    ∧ m1.view_count = some 1 ∧ m1.is_viewed = false
    ∧ (openSnapshot localId m1).shown = true
    ∧ m2.view_count = some 2 ∧ m2.is_viewed = true
    ∧ (openSnapshot localId m2).shown = false
    ∧ (openSnapshot localId m2).update = none
    ∧ (∀ m3 : Msg, m3.view_count.getD 0 ≤ 2 →
        (applySnapUpdate m3 (openSnapshot localId m3).update).view_count.getD 0 ≤ 2) := by
  subst h1
  subst h2
  refine ⟨?_, ?_, ?_, ?_, ?_, ?_, ?_, ?_, ?_⟩
  · simp [openSnapshot, hrecv, hcount]
  · simp [openSnapshot, applySnapUpdate, hrecv, hcount]
  · simp [openSnapshot, applySnapUpdate, hrecv, hcount]
  · simp [openSnapshot, applySnapUpdate, hrecv, hcount]
  · simp [openSnapshot, applySnapUpdate, hrecv, hcount]
  · simp [openSnapshot, applySnapUpdate, hrecv, hcount]
  · simp [openSnapshot, applySnapUpdate, hrecv, hcount]
  · simp [openSnapshot, applySnapUpdate, hrecv, hcount]
  · intro m3 h3
    by_cases hr : m3.receiver_id = localId
    · by_cases hc : 2 ≤ m3.view_count.getD 0
      · simp [openSnapshot, hr, hc, applySnapUpdate]
        omega
      · simp [openSnapshot, hr, hc, applySnapUpdate]
        omega
    · simp [openSnapshot, hr, applySnapUpdate]
      exact h3

/-- C1 witness: the amended behaviour on the concrete snapshot `snap0`. -/
theorem claim_C1_witness :
    (openSnapshot "a" snap0).shown = true
    ∧ snap1.view_count = some 1 ∧ snap1.is_viewed = false
    ∧ (openSnapshot "a" snap1).shown = true
    ∧ snap2.view_count = some 2 ∧ snap2.is_viewed = true
    ∧ (openSnapshot "a" snap2).shown = false := by
  have h := claim_C1_amended "a" snap0 snap1 snap2 rfl rfl rfl rfl
  exact ⟨h.1, h.2.1, h.2.2.1, h.2.2.2.1, h.2.2.2.2.1, h.2.2.2.2.2.1, h.2.2.2.2.2.2.1⟩

/-- C10: `openSnapshot` mutates viewing state only when the local user is
the receiver: when the receiver is someone else (in particular for a
message the local user sent in a two-party chat), the snapshot is displayed
but no record update is issued and the stored row is unchanged in every
field; conversely any issued update implies the local user is the
receiver. -/
theorem claim_C10 (localId : String) (m : Msg) (h : m.receiver_id ≠ localId) :
    (openSnapshot localId m).update = none
    ∧ (openSnapshot localId m).shown = true
    ∧ applySnapUpdate m (openSnapshot localId m).update = m
    ∧ (∀ m2 : Msg, (openSnapshot localId m2).update ≠ none → m2.receiver_id = localId) := by
  have hcond : ¬(m.receiver_id = localId ∧ 2 ≤ m.view_count.getD 0) := fun hc => h hc.1
  refine ⟨?_, ?_, ?_, ?_⟩
  · simp [openSnapshot, if_neg hcond, if_neg h]
  · simp [openSnapshot, if_neg hcond]
  · simp [openSnapshot, if_neg hcond, if_neg h, applySnapUpdate]
  · intro m2 hu
    by_contra hr
    apply hu
    have hcond2 : ¬(m2.receiver_id = localId ∧ 2 ≤ m2.view_count.getD 0) := fun hc => hr hc.1
    simp [openSnapshot, if_neg hcond2, if_neg hr]

/-- C10 witness: a snapshot sent by the local user `a` to `b` triggers no
update when `a` opens it. -/
theorem claim_C10_witness :
    (openSnapshot "a" { sender_id := "a", receiver_id := "b",
                        media_type := "snapshot" } : SnapOutcome).update = none :=
  (claim_C10 "a" { sender_id := "a", receiver_id := "b", media_type := "snapshot" }
    (by decide)).1

/-- C2 counterexample: the envelope the multi-recipient send path emits
carries no `v` field at all, so it is not tagged `v = "h1"` as claimed. -/
theorem claim_C2_counterexample :
    (sendMessage ⟨"alice", "bob", 1, 2, "none", 0⟩ "text" "hi" none 5 7).map
        (fun pr => pr.1.v) = some none
    ∧ (sendMessage ⟨"alice", "bob", 1, 2, "none", 0⟩ "text" "hi" none 5 7).map
        (fun pr => pr.1.v) ≠ some (some "h1") := by decide

/-- C2 (amended): `sendMessage` generates one ephemeral AES key, encrypts
the text payload (and any media, under its own nonce) once with that single
key, wraps the raw key via RSA-OAEP once per recipient, placing each
wrapped key under that recipient's identifier in `keys` with exactly one
entry per intended recipient (sender included) — but the emitted envelope
carries no `v = "h1"` tag (and no singular `key` field). -/
theorem claim_C2_amended (ctx : SendCtx) (mediaType text : String)
    (media : Option (String × Nat)) (aesId ivN : Nat) (p : Packet) (row : Msg)
    (hne : ctx.myId ≠ ctx.partnerId)
    (hsend : sendMessage ctx mediaType text media aesId ivN = some (p, row)) :
    p.v = none
    ∧ p.key = none
    ∧ p.keys = some [(ctx.myId, encryptAESKeyForUser aesId ctx.myPub),
                     (ctx.partnerId, encryptAESKeyForUser aesId ctx.partnerPub)]
    ∧ p.iv = some ivN
    ∧ p.content = some (.enc aesId ivN (if text = "" then " " else text))
    ∧ (∀ d miv, media = some (d, miv) →
        row.media_url = some (.enc aesId miv d) ∧ p.media_iv = some miv)
    ∧ (media = none → row.media_url = none ∧ p.media_iv = none)
    ∧ row.encrypted_content = some (.json p) := by
  have hns : ctx.partnerId ≠ ctx.myId := Ne.symm hne
  unfold sendMessage at hsend
  split at hsend
  · exact absurd hsend (by simp)
  · simp only [Option.some.injEq, Prod.mk.injEq] at hsend
    obtain ⟨hp, hrow⟩ := hsend
    subst hp
    subst hrow
    refine ⟨rfl, rfl, ?_, rfl, rfl, ?_, ?_, rfl⟩
    · simp [jsObj2, if_neg hns]
    · intro d miv hm
      subst hm
      exact ⟨rfl, rfl⟩
    · intro hm
      subst hm
      exact ⟨rfl, rfl⟩

/-- C2 witness: the concrete envelope `packet0` built by `sendMessage` for
`ctx0` is untagged and holds exactly one wrapped key per recipient. -/
theorem claim_C2_witness :
    packet0.v = none
    ∧ packet0.keys = some [("alice", .rsa 1 (.aesRaw 5)), ("bob", .rsa 2 (.aesRaw 5))] := by
  have h := claim_C2_amended ctx0 "text" "hi" none 5 7 packet0 row0 (by decide) (by decide)
  exact ⟨h.1, h.2.2.1⟩

/-- C6: the lifecycle fields `sendMessage` computes from the conversation's
auto-delete mode: `is_view_once` is true exactly for mode `view`;
`is_disappearing` is true exactly when the mode ends with `_view`;
`disappearing_duration` is 1, 60 or 180 minutes for `1m_view`, `1h_view`,
`3h_view` and null otherwise; `expires_at` is send time plus 180 minutes
for mode `3h`, send time plus 1 minute for mode `1m`, and null otherwise. -/
theorem claim_C6 (ctx : SendCtx) (mediaType text : String)
    (media : Option (String × Nat)) (aesId ivN : Nat) (p : Packet) (row : Msg)
    (hsend : sendMessage ctx mediaType text media aesId ivN = some (p, row)) :
    (row.is_view_once = true ↔ ctx.mode = "view")
    ∧ (row.is_disappearing = true ↔ strEndsWith ctx.mode "_view" = true)
    ∧ row.disappearing_duration =
        (if ctx.mode = "1m_view" then some 1
         else if ctx.mode = "1h_view" then some 60
         else if ctx.mode = "3h_view" then some 180
         else none)
    ∧ row.expires_at =
        (if ctx.mode = "3h" then some (ctx.now + 180 * 60 * 1000)
         else if ctx.mode = "1m" then some (ctx.now + 1 * 60 * 1000)
         else none) := by
  unfold sendMessage at hsend
  split at hsend
  · exact absurd hsend (by simp)
  · simp only [Option.some.injEq, Prod.mk.injEq] at hsend
    obtain ⟨hp, hrow⟩ := hsend
    subst hp
    subst hrow
    refine ⟨by simp, Iff.rfl, rfl, by norm_num⟩

/-- C6 witness: for mode `1h_view` the row is disappearing with a 60-minute
duration, is not view-once, and has no absolute expiry. -/
theorem claim_C6_witness :
    row0.disappearing_duration = some 60
    ∧ row0.is_disappearing = true
    ∧ row0.is_view_once = false
    ∧ row0.expires_at = none := by
  have h := claim_C6 ctx0 "text" "hi" none 5 7 packet0 row0 (by decide)
  refine ⟨?_, ?_, ?_, ?_⟩
  · rw [h.2.2.1]
    decide
  · exact h.2.1.mpr (by decide)
  · by_contra hv
    have : ctx0.mode = "view" := h.1.mp (by revert hv; decide)
    exact absurd this (by decide)
  · rw [h.2.2.2]
    decide

/-- C4 counterexample: decrypting a message whose `encrypted_content` is a
bare legacy RSA ciphertext of `"hello"` via `decryptMessageContent` does
not decrypt it at all: it returns the original ciphertext string verbatim,
even though the legacy decryption (performed by the library
`decryptMessage`) would yield `"hello"`. -/
theorem claim_C4_counterexample :
    decryptMessageContent "a" (some 0) mRaw = .wire (.b64 (.rsa 0 (.text "hello")))
    ∧ decryptMessage (.b64 (.rsa 0 (.text "hello"))) 0 = "hello"
    ∧ Out.wire (.b64 (.rsa 0 (.text "hello"))) ≠ Out.text "hello" := by decide

/-- C4 (amended): on parse failure, or on a parsed object that misses the
hybrid shape, the library `decryptMessage` falls back to legacy RSA-OAEP
decryption of the whole original string — its shape test being `v = "h1"`
with a truthy singular `key` (not `keys`), `content` and `iv` — whereas the
chat-path `decryptMessageContent` (shape: `iv`, `content` and `keys`
present, no version check) instead returns the original string unchanged,
attempting no decryption. -/
theorem claim_C4_amended :
    (∀ (c : B64Cipher) (priv : Nat),
        decryptMessageBody (.b64 c) priv = legacyRsaDecrypt (.b64 c) priv)
    ∧ (∀ (s : String) (priv : Nat),
        decryptMessageBody (.plain s) priv = legacyRsaDecrypt (.plain s) priv)
    ∧ (∀ (p : Packet) (priv : Nat), hybridShape1 p = false →
        decryptMessageBody (.json p) priv = legacyRsaDecrypt (.json p) priv)
    ∧ (∀ (me : String) (priv : Option Nat) (m : Msg) (w : Wire),
        m.encrypted_content = some w → wireIsJson w = false →
        decryptMessageContent me priv m = .wire w)
    ∧ (∀ (me : String) (priv : Option Nat) (m : Msg) (p : Packet),
        m.encrypted_content = some (.json p) → contentShape p = false →
        decryptMessageContent me priv m = .wire (.json p)) := by
  refine ⟨fun c priv => rfl, fun s priv => rfl, ?_, ?_, ?_⟩
  · intro p priv h
    obtain ⟨v, key, keys, content, iv, miv⟩ := p
    cases v <;> cases key <;> cases content <;> cases iv <;>
      simp_all [hybridShape1, decryptMessageBody, legacyRsaDecrypt]
  · intro me priv m w hec hj
    cases w with
    | json p => simp [wireIsJson] at hj
    | b64 c => simp [decryptMessageContent, decryptMessageContentBody, hec]
    | plain s => simp [decryptMessageContent, decryptMessageContentBody, hec]
  · intro me priv m p hec hs
    obtain ⟨v, key, keys, content, iv, miv⟩ := p
    cases keys <;> cases content <;> cases iv <;>
      simp_all [contentShape, decryptMessageContent, decryptMessageContentBody, hec,
                Option.elim]

/-- C4 witness: a packet tagged `v = "h1"` with `content` and `iv` but no
singular `key` field fails the library shape test and lands in the legacy
branch, and the chat path returns a non-JSON ciphertext verbatim. -/
theorem claim_C4_witness :
    decryptMessageBody
        (.json { v := some "h1", content := some (.enc 0 0 "x"), iv := some 0 }) 0
      = legacyRsaDecrypt
        (.json { v := some "h1", content := some (.enc 0 0 "x"), iv := some 0 }) 0
    ∧ decryptMessageContent "a" (some 0) mRaw = .wire (.b64 (.rsa 0 (.text "hello"))) := by
  refine ⟨claim_C4_amended.2.2.1
            { v := some "h1", content := some (.enc 0 0 "x"), iv := some 0 } 0 (by decide), ?_⟩
  exact claim_C4_amended.2.2.2.1 "a" (some 0) mRaw (.b64 (.rsa 0 (.text "hello"))) rfl rfl

/-- C5: decrypting a hybrid envelope whose `keys` map holds no entry for
the local identity yields the key-mismatch placeholder: the body itself
returns it without raising any error (so no decryption is attempted, no
exception is thrown, and no plaintext — right or wrong — is produced). -/
theorem claim_C5 (me : String) (priv : Option Nat) (m : Msg) (p : Packet)
    (ivv : Nat) (c : AESContent) (ks : List (String × B64Cipher))
    (hec : m.encrypted_content = some (.json p))
    (hiv : p.iv = some ivv) (hc : p.content = some c) (hct : aesTruthy c = true)
    (hks : p.keys = some ks) (hlook : lookupKey ks me = none) :
    decryptMessageContentBody me priv m
      = .ok (.text "[Secure Signal: Key mismatch for current node]")
    ∧ decryptMessageContent me priv m
      = .text "[Secure Signal: Key mismatch for current node]" := by
  have hbody : decryptMessageContentBody me priv m
      = .ok (.text "[Secure Signal: Key mismatch for current node]") := by
    simp [decryptMessageContentBody, hec, hiv, hc, hks, hct, hlook]
  exact ⟨hbody, by simp [decryptMessageContent, hbody]⟩

/-- C5 witness: the concrete envelope `pMis`, whose only wrapped key is for
user `b`, yields the key-mismatch placeholder for user `a`. -/
theorem claim_C5_witness :
    decryptMessageContent "a" (some 0) mMis
      = .text "[Secure Signal: Key mismatch for current node]" :=
  (claim_C5 "a" (some 0) mMis pMis 1 (.enc 9 1 "x") [("b", .rsa 3 (.aesRaw 9))]
    rfl rfl rfl rfl rfl (by decide)).2

/-- C7: for an unviewed message whose receiver is the local user, the
`fetchMessages` viewing pass selects it and updates it with
`is_viewed = true` and `viewed_at = now`; when it is disappearing with a
duration set, `expires_at` becomes `viewed_at` plus the duration in
minutes — in particular a 60-minute (`1h_view`) message viewed at `now`
expires at `now + 60` minutes. -/
theorem claim_C7 (me : String) (now : Nat) (m : Msg)
    (hrecv : m.receiver_id = me) (hunviewed : m.is_viewed = false) :
    unviewedFilter me m = true
    ∧ (viewUpdate now m).is_viewed = true
    ∧ (viewUpdate now m).viewed_at = some now
    ∧ (∀ d, m.is_disappearing = true → m.disappearing_duration = some d → 0 < d →
        (viewUpdate now m).expires_at = some (now + d * 60 * 1000))
    ∧ (m.is_disappearing = true → m.disappearing_duration = some 60 →
        (viewUpdate now m).expires_at = some (now + 60 * 60 * 1000)) := by
  refine ⟨?_, ?_, ?_, ?_, ?_⟩
  · simp [unviewedFilter, hrecv, hunviewed]
  · unfold viewUpdate
    split <;> rfl
  · unfold viewUpdate
    split <;> rfl
  · intro d hdis hdur hd
    have hne : d ≠ 0 := Nat.pos_iff_ne_zero.mp hd
    simp [viewUpdate, hdis, hdur, jsTruthyNat, hne]
  · intro hdis hdur
    simp [viewUpdate, hdis, hdur, jsTruthyNat]

/-- C7 witness: the concrete `1h_view` message `m7`, viewed by `a` at time
5000, is selected and scheduled to expire at `5000 + 60` minutes. -/
theorem claim_C7_witness :
    unviewedFilter "a" m7 = true
    ∧ (viewUpdate 5000 m7).viewed_at = some 5000
    ∧ (viewUpdate 5000 m7).expires_at = some (5000 + 60 * 60 * 1000) := by
  have h := claim_C7 "a" 5000 m7 rfl rfl
  exact ⟨h.1, h.2.2.1, h.2.2.2.2 rfl rfl⟩

/-- C9: every internal failure of text-message decryption is caught by
`decryptMessage` and converted to the neutral placeholder (the wrapper is
total, so `decryptMessage` never throws), whereas `decryptToBlob` rethrows:
a key or nonce mismatch, or undecodable media bytes, surface to its caller
as an error rather than a placeholder. -/
theorem claim_C9 :
    (∀ (w : Wire) (priv : Nat) (e : CErr),
        decryptMessageBody w priv = .error e → decryptMessage w priv = "[Secure Signal]")
    ∧ (∀ (k i : Nat) (d : String) (ivGiven key : Nat) (mime : String),
        ¬(k = key ∧ i = ivGiven) →
        decryptToBlob (.enc k i d) ivGiven key mime = .error .decryptAuth)
    ∧ (∀ (s : String) (ivGiven key : Nat) (mime : String),
        decryptToBlob (.junk s) ivGiven key mime = .error .decryptAuth) := by
  refine ⟨?_, ?_, ?_⟩
  · intro w priv e h
    simp [decryptMessage, h]
  · intro k i d ivGiven key mime h
    simp [decryptToBlob, if_neg h]
  · intro s ivGiven key mime
    rfl

/-- C9 witness: a non-decodable wire string decrypts to the placeholder,
while a blob encrypted under AES key 1 fails hard against key 9. -/
theorem claim_C9_witness :
    decryptMessage (.plain "x") 0 = "[Secure Signal]"
    ∧ decryptToBlob (.enc 1 2 "d") 2 9 "image/jpeg" = .error .decryptAuth :=
  ⟨claim_C9.1 (.plain "x") 0 .decodeErr rfl,
   claim_C9.2.1 1 2 "d" 2 9 "image/jpeg" (by decide)⟩

end ChatCore
